import Mathlib

/-!
Verification of the `echo-state` reactive store (class `Echo`, the IndexedDB
middleware `createIndexedDBMiddleware`, and the `IndexedDBStorage` adapter).

The embedding is a shallow one: the store's JavaScript state values are
modelled by the JSON-like type `JVal`; each method of the `Echo` class is a
pure Lean function from an `EchoState` (the instance's mutable fields) to a
new `EchoState` together with a list of observable events `Ev` (callback
invocations, timer registrations, storage and channel I/O).  Debounced
timers (`setTimeout`) are modelled as single-slot pending payloads plus a
separate "timer fires" step, matching the single-threaded JS event loop:
nothing scheduled can run before the current synchronous code returns.
-/

/-- JavaScript values as exchanged through the store: `undefined`, `null`,
booleans, numbers, strings and plain objects (ordered field lists). -/
inductive JVal where
  | undefined : JVal
  | null : JVal
  | bool : Bool → JVal
  | num : Int → JVal
  | str : String → JVal
  | obj : List (String × JVal) → JVal

/-- First-match association-list lookup, the semantics of reading an own
property of a JS object given as an ordered field list. -/
def lookupF (fs : List (String × JVal)) (k : String) : Option JVal :=
  match fs with
  | [] => none
  | (a, b) :: rest => if a == k then some b else lookupF rest k

/-- Whether a field list carries the key (JS `hasOwnProperty` on the list). -/
def hasKey (fs : List (String × JVal)) (k : String) : Bool :=
  match fs with
  | [] => false
  | (a, _) :: rest => a == k || hasKey rest k

/-- JS property access `v[k]`: `undefined` on a missing property or a
non-object receiver (primitive wrapper properties are out of scope). -/
def jsGet (v : JVal) (k : String) : JVal :=
  match v with
  | .obj fs => match lookupF fs k with
      | some w => w
      | none => .undefined
  | _ => .undefined

/-- JS `Object.prototype.hasOwnProperty` restricted to plain objects. -/
def jsHasOwn (v : JVal) (k : String) : Bool :=
  match v with
  | .obj fs => hasKey fs k
  | _ => false

/-- JS truthiness. -/
def truthy (v : JVal) : Bool :=
  match v with
  | .undefined => false
  | .null => false
  | .bool b => b
  | .num n => n != 0
  | .str s => s != ""
  | .obj _ => true

/-- `typeof v === "object"` (true for `null` as well, a JS quirk the
validator relies on the truthiness check to exclude). -/
def typeofIsObject (v : JVal) : Bool :=
  match v with
  | .null => true
  | .obj _ => true
  | _ => false

/-- The override JS `Object.assign` performs for one field of the first
source: the second source's value for that key if present, else the own one. -/
def assignVal (q : List (String × JVal)) (a : String) (b : JVal) : JVal :=
  match lookupF q a with
  | some c => c
  | none => b

/-- `Object.assign(\x7b\x7d, p, q)` on plain objects: `p`'s keys in order,
values overridden by `q` where present, followed by `q`'s new keys in order. -/
def objAssign (p q : List (String × JVal)) : List (String × JVal) :=
  (p.map fun kv => (kv.1, assignVal q kv.1 kv.2))
    ++ q.filter fun kv => !hasKey p kv.1

/-- Left-biased choice on optional values (`a` if present, else `b`). -/
def optOr (a b : Option JVal) : Option JVal :=
  match a with
  | some v => some v
  | none => b

theorem lookupF_append (xs ys : List (String × JVal)) (k : String) :
    lookupF (xs ++ ys) k = optOr (lookupF xs k) (lookupF ys k) := by
  induction xs with
  | nil => cases h : lookupF ys k <;> simp [lookupF, optOr, h]
  | cons hd tl ih =>
      obtain ⟨a, b⟩ := hd
      by_cases hak : (a == k) = true
      · simp [lookupF, hak, optOr]
      · simp [lookupF, hak, ih]

theorem lookupF_mapAssign (p q : List (String × JVal)) (k : String) :
    lookupF (p.map fun kv => (kv.1, assignVal q kv.1 kv.2)) k
      = match lookupF p k with
        | some b => some (assignVal q k b)
        | none => none := by
  induction p with
  | nil => simp [lookupF]
  | cons hd tl ih =>
      obtain ⟨a, b⟩ := hd
      by_cases hak : (a == k) = true
      · have : a = k := by simpa using hak
        subst this
        simp [lookupF, hak]
      · simp [lookupF, hak, ih]

theorem hasKey_eq_isSome (p : List (String × JVal)) (k : String) :
    hasKey p k = (lookupF p k).isSome := by
  induction p with
  | nil => simp [hasKey, lookupF]
  | cons hd tl ih =>
      obtain ⟨a, b⟩ := hd
      by_cases hak : (a == k) = true
      · simp [hasKey, lookupF, hak]
      · simp [hasKey, lookupF, hak, ih]

theorem lookupF_filterNotKeys (q p : List (String × JVal)) (k : String) :
    lookupF (q.filter fun kv => !hasKey p kv.1) k
      = if hasKey p k then none else lookupF q k := by
  induction q with
  | nil => simp [lookupF]
  | cons hd tl ih =>
      obtain ⟨c, d⟩ := hd
      by_cases hck : (c == k) = true
      · have hc : c = k := by simpa using hck
        subst hc
        by_cases hkp : hasKey p c = true
        · simp [List.filter, hkp, ih]
        · simp [List.filter, hkp, lookupF, hck]
      · by_cases hkp : hasKey p c = true
        · rw [List.filter_cons_of_neg (by simp [hkp]), ih]
          by_cases hk : hasKey p k = true <;> simp [hk, lookupF, hck]
        · simp [List.filter, hkp, lookupF, hck, ih]

/-- Shallow-merge semantics of `Object.assign(\x7b\x7d, p, q)`: looking up a
key in the merged object yields `q`'s value when `q` has the key, else
`p`'s. -/
theorem lookupF_objAssign (p q : List (String × JVal)) (k : String) :
    lookupF (objAssign p q) k = optOr (lookupF q k) (lookupF p k) := by
  unfold objAssign
  rw [lookupF_append, lookupF_mapAssign, lookupF_filterNotKeys,
    hasKey_eq_isSome]
  cases hp : lookupF p k with
  | none =>
      simp only [hp, Option.isSome_none, Bool.false_eq_true, if_false]
      cases hq : lookupF q k <;> simp [optOr]
  | some b =>
      simp only [hp, Option.isSome_some, if_true]
      cases hq : lookupF q k <;> simp [optOr, assignVal, hq]

/-- `JSON.stringify` on the modelled values, used by `Echo.getStateHash` and
the middleware's `lastSavedState` comparison purely as a content
fingerprint.  String escaping and the omission of `undefined`-valued fields
are not reproduced; the spec classifies fingerprint collisions as benign
skips, and no claim below depends on injectivity of the encoding. -/
def jsonStringify : JVal → String
  | .undefined => "undefined"
  | .null => "null"
  | .bool true => "true"
  | .bool false => "false"
  | .num n => toString n
  | .str s => "\x22" ++ s ++ "\x22"
  | .obj fs => "\x7b" ++ go fs ++ "\x7d"
where
  go : List (String × JVal) → String
  | [] => ""
  | [(k, v)] => "\x22" ++ k ++ "\x22:" ++ jsonStringify v
  | (k, v) :: rest => "\x22" ++ k ++ "\x22:" ++ jsonStringify v ++ "," ++ go rest

/-- zustand's `setState(partial, replace)` next-state computation for value
(non-function) updates: the partial replaces the state outright when
`replace` is true or the partial is not an object; otherwise it is
shallow-merged over the current state with `Object.assign`
(`Object.assign(\x7b\x7d, state, partial)`); a `null` partial merged into an
object leaves it unchanged. -/
def zustandNext (st part : JVal) (replace : Bool) : JVal :=
  if replace then part
  else
    match st, part with
    | .obj p, .obj q => .obj (objAssign p q)
    | _, .obj q => .obj q
    | .obj p, .null => .obj p
    | _, _ => part

/-- Observable events emitted by the store's operations, in program order:
`onChange` callback invocations (with their two arguments), debounce-timer
registrations for a broadcast or a persistence save, the actual channel
`postMessage`, the IndexedDB backend write performed from a deferred
continuation, the synchronous `localStorage` write the zustand persist
middleware performs inline during a commit, and console warnings/errors. -/
inductive Ev where
  | onChange : JVal → JVal → Ev
  | schedBroadcast : JVal → Ev
  | post : JVal → Ev
  | schedSave : JVal → Ev
  | storageWrite : JVal → Ev
  | localWrite : JVal → Ev
  | warn : Ev

/-- Effects that only ever run from deferred continuations (timer or promise
callbacks): the fired channel `postMessage` and the IndexedDB backend write.
The `localStorage` write (`Ev.localWrite`) is not among them — the persist
middleware executes it inline, synchronously and without awaiting, inside
the commit itself. -/
def isDeferredIOEv : Ev → Bool
  | .post _ => true
  | .storageWrite _ => true
  | _ => false

/-- The synchronous `localStorage` write of the persist middleware. -/
def isLocalWriteEv : Ev → Bool
  | .localWrite _ => true
  | _ => false

/-- Outbound-broadcast activity: either registering the broadcast debounce
timer or the fired `postMessage` itself. -/
def isBroadcastEv : Ev → Bool
  | .schedBroadcast _ => true
  | .post _ => true
  | _ => false

/-- The `(newState, oldState)` argument pairs of the `onChange` invocations
in a trace. -/
def onChangeEvs : List Ev → List (JVal × JVal)
  | [] => []
  | .onChange n o :: rest => (n, o) :: onChangeEvs rest
  | _ :: rest => onChangeEvs rest

/-- Which store variant `initialize()` builds from the options: no `name`
gives a plain in-memory store with no persistence; a `name` with
`storageType: "indexedDB"` attaches `createIndexedDBMiddleware`, whose
`api.subscribe` listener schedules a debounced asynchronous backend write;
a `name` with any other (default) storage type attaches zustand's `persist`
middleware over `createJSONStorage(localStorage)`, which performs a
synchronous, unguarded `localStorage.setItem` inside every `setState`. -/
inductive StorageKind where
  | unnamed : StorageKind
  | localStorage : StorageKind
  | indexedDB : StorageKind

/-- The mutable fields of an `Echo` instance (class `Echo` of the source),
together with the configuration drawn from its `EchoOptions`:
`state` is the zustand store's value, `defaultValue` the constructor
argument, `name`/`syncOpt`/`hasOnChange` mirror `options.name`,
`options.sync` and the presence of `options.onChange`, `storageKind` which
of the three persistence variants `initialize()` attached,
`channel` whether `this.channel` is non-null, `lastSyncHash` is
`this.lastSyncHash`, and `pendingBroadcast` the payload of a scheduled but
not yet fired `syncTimeout` debounce timer. -/
structure EchoState where
  state : JVal
  defaultValue : JVal
  name : Option String
  syncOpt : Bool
  hasOnChange : Bool
  storageKind : StorageKind
  channel : Bool
  lastSyncHash : Option String
  pendingBroadcast : Option JVal

/-- `Echo.getStateHash`: the content hash is the JSON serialization. -/
def Echo.getStateHash (state : JVal) : String := jsonStringify state

/-- `Echo.current` getter: a synchronous read of the zustand store value. -/
def Echo.current (e : EchoState) : JVal := e.state

/-- What one zustand commit (`setState`) itself emits, per persistence
variant: on the default `localStorage` path the `persist` middleware writes
`localStorage` synchronously inline (an unawaited `void setItem()` after the
listeners have run); on the IndexedDB path the middleware's `api.subscribe`
listener clears any pending save timer and registers a new debounced save
(`SAVE_DELAY`); an unnamed store has neither. -/
def commitEvs (e : EchoState) (newState : JVal) : List Ev :=
  match e.storageKind with
  | .unnamed => []
  | .localStorage => [Ev.localWrite newState]
  | .indexedDB => [Ev.schedSave newState]

/-- `Echo.broadcastState`: skip when the channel is absent or sync is not
configured, skip when the content hash equals `lastSyncHash`, otherwise
clear any pending `syncTimeout` and register a debounced `postMessage`.
`lastSyncHash` is only assigned later, when the timer fires. -/
def Echo.broadcastState (e : EchoState) (newState : JVal) : EchoState × List Ev :=
  if !e.channel || !e.syncOpt then (e, [])
  else if some (Echo.getStateHash newState) == e.lastSyncHash then (e, [])
  else ({e with pendingBroadcast := some newState}, [Ev.schedBroadcast newState])

/-- Expiry of the `syncTimeout` debounce timer scheduled by
`Echo.broadcastState`: `this.channel?.postMessage(\x7b type: "state-update",
state, timestamp \x7d)` — a no-op when the channel has been closed in the
meantime — followed unconditionally by `this.lastSyncHash = hash`. -/
def Echo.fireBroadcast (e : EchoState) : EchoState × List Ev :=
  match e.pendingBroadcast with
  | none => (e, [])
  | some v =>
      ({e with pendingBroadcast := none,
               lastSyncHash := some (Echo.getStateHash v)},
       if e.channel then [Ev.post v] else [])

/-- `Echo.set` for a value (non-function) update: read `oldState` from
`current`, commit through zustand's `setState` (merge or replace per the
flag; the commit synchronously runs the attached persistence variant's
work, `commitEvs`), read back `newState`, schedule a broadcast when a
channel exists, and finally invoke `options.onChange(newState, oldState)`
if configured. -/
def Echo.set (e : EchoState) (part : JVal) (replace : Bool) : EchoState × List Ev :=
  let oldState := Echo.current e
  let newState := zustandNext e.state part replace
  let e1 := {e with state := newState}
  let subEvs := commitEvs e1 newState
  let br := if e1.channel then Echo.broadcastState e1 newState else (e1, [])
  let cEvs := if e1.hasOnChange then [Ev.onChange newState oldState] else []
  (br.1, subEvs ++ br.2 ++ cEvs)

/-- `Echo.delete`: commit a replace-update whose value is a copy of the
state without the key.  No broadcast is requested and `options.onChange` is
not invoked; only the attached persistence variant observes the commit. -/
def Echo.delete (e : EchoState) (k : String) : EchoState × List Ev :=
  let newState :=
    match e.state with
    | .obj fs => JVal.obj (fs.filter fun kv => !(kv.1 == k))
    | _ => JVal.obj []
  let e1 := {e with state := newState}
  (e1, commitEvs e1 newState)

/-- `Echo.reset`: read `oldState`, commit the constructor's `defaultValue`
as a replace-update, and invoke `options.onChange(defaultValue, oldState)`
if configured.  No broadcast is requested. -/
def Echo.reset (e : EchoState) : EchoState × List Ev :=
  let oldState := Echo.current e
  let e1 := {e with state := e.defaultValue}
  (e1,
   commitEvs e1 e.defaultValue
     ++ (if e1.hasOnChange then [Ev.onChange e.defaultValue oldState] else []))

/-- `data.type === "state-update"` (strict string comparison). -/
def isStateUpdateType (v : JVal) : Bool :=
  match v with
  | .str s => s == "state-update"
  | _ => false

/-- `Echo.validateStateUpdate`: `data` is truthy, `typeof data` is
`"object"`, `data.type === "state-update"`, and `data` has own properties
`"state"` and `"timestamp"`.  The types of the `state` and `timestamp`
values themselves are not inspected. -/
def Echo.validateStateUpdate (data : JVal) : Bool :=
  truthy data && typeofIsObject data
    && isStateUpdateType (jsGet data "type")
    && jsHasOwn data "state" && jsHasOwn data "timestamp"

/-- The `onmessage` handler installed by the sync initializer: validate the
envelope, compare the content hash of `event.data.state` against
`lastSyncHash` and stop on a match; otherwise record the hash, commit the
incoming state as a replace-update (running the attached persistence
variant's commit work), and
invoke `options.onChange(event.data.state, oldState)` where `oldState` is
read from `this.current` only after the commit — mirroring the source's
statement order.  Validation failure leaves the store untouched, and the
whole body sits in a try/catch, so a malformed message never escapes. -/
def Echo.onMessage (e : EchoState) (data : JVal) : EchoState × List Ev :=
  if Echo.validateStateUpdate data then
    let st := jsGet data "state"
    if some (Echo.getStateHash st) == e.lastSyncHash then (e, [])
    else
      let e1 := {e with lastSyncHash := some (Echo.getStateHash st), state := st}
      let cEvs := if e1.hasOnChange then [Ev.onChange st (Echo.current e1)] else []
      (e1, commitEvs e1 st ++ cEvs)
  else (e, [])

/-- The source's `initializeSync` method, modelled as `Echo.initSync`:
warn and bail out without a `name` option or without `BroadcastChannel`
support (`envOK`); otherwise open the channel, install the `onmessage`
handler, and broadcast the current state (which still consults the
`options.sync` and hash guards of `Echo.broadcastState`). -/
def Echo.initSync (e : EchoState) (envOK : Bool) : EchoState × List Ev :=
  match e.name with
  | none => (e, [Ev.warn])
  | some _ =>
      if !envOK then (e, [Ev.warn])
      else Echo.broadcastState {e with channel := true} e.state

/-- `Echo.sync(enabled)`: a no-op when `enabled` already equals the channel
presence; enabling runs the sync initializer; disabling closes and drops the
channel and clears `lastSyncHash` (a pending `syncTimeout`, however, is not
cancelled). -/
def Echo.sync (e : EchoState) (enabled : Bool) (envOK : Bool) : EchoState × List Ev :=
  if enabled == e.channel then (e, [])
  else if enabled then Echo.initSync e envOK
  else ({e with channel := false, lastSyncHash := none}, [])

/-- `Echo.MAX_RETRY_COUNT`. -/
def MAX_RETRY_COUNT : Nat := 3

/-- `Echo.RETRY_DELAY` (ms). -/
def RETRY_DELAY : Nat := 500

/-- `Echo.SYNC_DELAY` (ms). -/
def SYNC_DELAY : Nat := 50

/-- `Echo.SAVE_DELAY` (ms), the debounce quiet interval for saves and
broadcasts. -/
def SAVE_DELAY : Nat := 100

/-- The closure state of one `createIndexedDBMiddleware` instance:
`isInit` is `isInitialized`, `isHydrating` the write-suppression flag,
`lastSavedState` the serialized fingerprint of the last state handed to the
backend, `pendingSave` the payload of a scheduled but not yet fired
`saveTimeout` debounce timer, and `store` the zustand store value the
middleware wraps. -/
structure MWState where
  isInit : Bool
  isHydrating : Bool
  lastSavedState : Option String
  pendingSave : Option JVal
  store : JVal

/-- The middleware's `saveState`: skip when the serialized state equals
`lastSavedState` or while `isHydrating` is set (reading the flag's value at
the moment the debounced call actually runs); otherwise record the
fingerprint and write to the backend — on a backend failure (`writeFails`)
log and null the fingerprint so a later commit retries. -/
def mwSaveState (m : MWState) (st : JVal) (writeFails : Bool) : MWState × List Ev :=
  if some (jsonStringify st) == m.lastSavedState || m.isHydrating then (m, [])
  else
    if writeFails then
      ({m with lastSavedState := none}, [Ev.storageWrite st, Ev.warn])
    else
      ({m with lastSavedState := some (jsonStringify st)}, [Ev.storageWrite st])

/-- The middleware's `api.subscribe` listener: clear any pending
`saveTimeout` and register a fresh debounced `saveState` for the committed
state (`SAVE_DELAY` later). -/
def mwSubscribe (m : MWState) (st : JVal) : MWState :=
  {m with pendingSave := some st}

/-- Expiry of the `saveTimeout` debounce timer: run `saveState` on the
payload with the middleware's then-current flags. -/
def mwFireSave (m : MWState) (writeFails : Bool) : MWState × List Ev :=
  match m.pendingSave with
  | none => (m, [])
  | some st => mwSaveState {m with pendingSave := none} st writeFails

/-- The middleware's `initializeState` on the path where the backend holds a
saved state: set `isHydrating`, commit the saved state with
`set(savedState, true)` — which synchronously runs the `api.subscribe`
listener, scheduling a debounced save — then clear `isHydrating`, notify
`onRehydrateStorage`, and mark `isInitialized`.  The debounce timer
scheduled inside cannot fire before this synchronous block finishes. -/
def mwHydrate (m : MWState) (saved : JVal) : MWState × List Ev :=
  if m.isInit then (m, [])
  else
    let m1 := {m with isHydrating := true}
    let m2 := {m1 with store := saved}
    let m3 := mwSubscribe m2 saved
    let m4 := {m3 with isHydrating := false, isInit := true}
    (m4, [Ev.schedSave saved])

/-- A middleware instance as it starts: nothing initialized, no fingerprint,
no pending timer, store holding the default value. -/
def mwStart (dflt : JVal) : MWState :=
  { isInit := false, isHydrating := false, lastSavedState := none,
    pendingSave := none, store := dflt }

/-- `Echo.saveStateWithRetry`, recursion depth made structural: in the
source the call with `retryCount = rc` attempts the backend write and, on
failure, recurses with `rc + 1` after `RETRY_DELAY` only while
`rc < MAX_RETRY_COUNT`; here `remaining = MAX_RETRY_COUNT - rc` carries that
budget structurally.  The backend is abstracted by `failsFirst`, the number
of leading attempts that fail; the result is the total number of
`storage.setItem` attempts performed and whether one succeeded.  Every
failure is caught, so the function always returns normally. -/
def saveRetryGo (failsFirst attemptIdx remaining : Nat) : Nat × Bool :=
  if failsFirst ≤ attemptIdx then (1, true)
  else
    match remaining with
    | 0 => (1, false)
    | r + 1 =>
        let x := saveRetryGo failsFirst (attemptIdx + 1) r
        (x.1 + 1, x.2)

/-- `Echo.saveStateWithRetry` entered as the source always enters it, with
`retryCount = 0` and hence a budget of `MAX_RETRY_COUNT` further retries. -/
def saveStateWithRetry (failsFirst : Nat) : Nat × Bool :=
  saveRetryGo failsFirst 0 MAX_RETRY_COUNT

/-- A user-supplied callback (`onChange` or a `subscribe` listener) under
JS semantics: it may throw (`Except.error`) instead of returning. -/
def Callback : Type := JVal → JVal → Except String Unit

/-- The throw sites of one zustand commit (`store.setState`), in source
order: first zustand runs the registered listeners unguarded
(`listeners.forEach`, no try/catch) with `(nextState, prevState)` — a
throwing user `subscribe` listener escapes the commit; then, on the default
`localStorage` path only, the `persist` middleware's patched `setState`
performs its unguarded synchronous `void setItem()` — `storageFails` models
a backend failure such as quota exceeded, which throws out of the commit.
The IndexedDB middleware's own subscriber merely registers a timer and the
unnamed store writes nothing; neither can throw here. -/
def commitResult (e : EchoState) (listener : Callback) (storageFails : Bool)
    (next prev : JVal) : Except String Unit :=
  match listener next prev with
  | .error msg => .error msg
  | .ok _ =>
      match e.storageKind with
      | .localStorage =>
          if storageFails then .error "storage setItem failed" else .ok ()
      | _ => .ok ()

/-- `Echo.set` with exception propagation: the commit can throw from a user
`subscribe` listener or from the synchronous `localStorage` write
(`commitResult`); the broadcast scheduling afterwards sits in the source's
own try/catch (its `getStateHash` call precedes the `try`, but
`JSON.stringify` is total on the modelled values, which have no cycles);
the final unguarded `this.options.onChange(newState, oldState)` statement
then lets a throwing configured callback escape to `set`'s caller. -/
def Echo.setResult (e : EchoState) (part : JVal) (replace : Bool)
    (listener : Callback) (storageFails : Bool) (cb : Callback) :
    Except String EchoState :=
  match commitResult e listener storageFails
      (Echo.set e part replace).1.state (Echo.current e) with
  | .error msg => .error msg
  | .ok _ =>
      if e.hasOnChange then
        match cb (Echo.set e part replace).1.state (Echo.current e) with
        | .ok _ => .ok (Echo.set e part replace).1
        | .error msg => .error msg
      else .ok (Echo.set e part replace).1

/-- `Echo.reset` with exception propagation: the commit of `defaultValue`
runs the same unguarded listeners and synchronous `localStorage` write as
`set`, and the trailing `onChange(this.defaultValue, oldState)` call is
likewise unguarded. -/
def Echo.resetResult (e : EchoState) (listener : Callback)
    (storageFails : Bool) (cb : Callback) : Except String EchoState :=
  match commitResult e listener storageFails e.defaultValue (Echo.current e) with
  | .error msg => .error msg
  | .ok _ =>
      if e.hasOnChange then
        match cb e.defaultValue (Echo.current e) with
        | .ok _ => .ok (Echo.reset e).1
        | .error msg => .error msg
      else .ok (Echo.reset e).1

/-- `Echo.current` with exception propagation: `store.getState()` is a plain
field read and cannot throw. -/
def Echo.currentResult (e : EchoState) : Except String JVal :=
  .ok (Echo.current e)

/-- `Echo.delete` with exception propagation: no callback of its own, but
its `setState` still runs the unguarded listeners and, on the
`localStorage` path, the unguarded synchronous persist write — either of
which can throw out of `delete`. -/
def Echo.deleteResult (e : EchoState) (k : String) (listener : Callback)
    (storageFails : Bool) : Except String EchoState :=
  match commitResult e listener storageFails
      (Echo.delete e k).1.state (Echo.current e) with
  | .error msg => .error msg
  | .ok _ => .ok (Echo.delete e k).1

/-- `Echo.subscribe` with exception propagation: registering a zustand
listener only inserts it into the listener set and returns the
unsubscribe closure; it cannot throw. -/
def Echo.subscribeResult (_e : EchoState) : Except String Unit :=
  .ok ()

/-- Optional property read on a value: `none` when the receiver is not an
object or lacks the key. -/
def jsLookup (v : JVal) (k : String) : Option JVal :=
  match v with
  | .obj fs => lookupF fs k
  | _ => none

theorem onChangeEvs_append (xs ys : List Ev) :
    onChangeEvs (xs ++ ys) = onChangeEvs xs ++ onChangeEvs ys := by
  induction xs with
  | nil => rfl
  | cons hd tl ih => cases hd <;> simp [onChangeEvs, ih]

theorem onChangeEvs_commitEvs (e : EchoState) (v : JVal) :
    onChangeEvs (commitEvs e v) = [] := by
  unfold commitEvs
  split <;> rfl

theorem broadcastState_state (e : EchoState) (v : JVal) :
    (Echo.broadcastState e v).1.state = e.state := by
  unfold Echo.broadcastState
  split
  · rfl
  · split <;> rfl

theorem broadcastState_lastSyncHash (e : EchoState) (v : JVal) :
    (Echo.broadcastState e v).1.lastSyncHash = e.lastSyncHash := by
  unfold Echo.broadcastState
  split
  · rfl
  · split <;> rfl

theorem onChangeEvs_broadcastState (e : EchoState) (v : JVal) :
    onChangeEvs (Echo.broadcastState e v).2 = [] := by
  unfold Echo.broadcastState
  split
  · rfl
  · split <;> rfl

theorem Echo_set_state (e : EchoState) (part : JVal) (r : Bool) :
    (Echo.set e part r).1.state = zustandNext e.state part r := by
  simp only [Echo.set]
  split
  · exact broadcastState_state _ _
  · rfl

/-- When the instance is reachable by the sync guard at all, an outbound
broadcast whose content hash equals `lastSyncHash` is skipped entirely. -/
theorem broadcastState_skip (e : EchoState) (v : JVal)
    (h : e.lastSyncHash = some (Echo.getStateHash v)) :
    Echo.broadcastState e v = (e, []) := by
  unfold Echo.broadcastState
  split
  · rfl
  · rw [if_pos (by rw [h]; exact beq_self_eq_true _)]

/-- Nothing `Echo.set` emits synchronously is a deferred I/O effect: the
channel `postMessage` and the IndexedDB backend write only happen when the
debounce timers later fire.  (The synchronous `localStorage` write of the
persist variant does appear in the trace, as `Ev.localWrite`.) -/
theorem Echo_set_noDeferredIO (e : EchoState) (part : JVal) (r : Bool) :
    (Echo.set e part r).2.all (fun ev => !isDeferredIOEv ev) = true := by
  simp only [Echo.set, List.all_append, Bool.and_eq_true]
  refine ⟨⟨?_, ?_⟩, ?_⟩
  · unfold commitEvs
    split <;> rfl
  · split
    · unfold Echo.broadcastState
      split
      · rfl
      · split <;> rfl
    · rfl
  · split <;> rfl

/-- On the default `localStorage` persistence path, the commit inside
`Echo.set` performs its storage write synchronously, before `set`
returns. -/
theorem Echo_set_localWrite (e : EchoState) (part : JVal) (r : Bool)
    (hk : e.storageKind = StorageKind.localStorage) :
    (Echo.set e part r).2.any (fun ev => isLocalWriteEv ev) = true := by
  simp only [Echo.set, List.any_append, Bool.or_eq_true]
  refine Or.inl (Or.inl ?_)
  simp [commitEvs, hk, isLocalWriteEv]

/-- The field list of the running example store's state. -/
def pBase : List (String × JVal) := [("a", .num 0), ("b", .str "x")]

/-- A fully configured example store: named, IndexedDB-persisted, sync
requested with an open channel, `onChange` configured, no hash remembered
and no timer pending. -/
def eBase : EchoState :=
  { state := .obj pBase,
    defaultValue := .obj [("a", .num 0)],
    name := some "userStore", syncOpt := true, hasOnChange := true,
    storageKind := .indexedDB, channel := true, lastSyncHash := none,
    pendingBroadcast := none }

/-- A named store on the default persistence path: zustand `persist` over
`localStorage`, as the repository's own `history` and settings stores are
configured. -/
def eLS : EchoState :=
  { state := .obj [("a", .num 0)],
    defaultValue := .obj [("a", .num 0)],
    name := some "settings", syncOpt := false, hasOnChange := false,
    storageKind := .localStorage, channel := false, lastSyncHash := none,
    pendingBroadcast := none }

/-- Claim C1, counterexample: on a store with an `onChange` callback
configured, a single `delete` call invokes the callback zero times, not
once — `Echo.delete` commits through `setState` but, unlike `set` and
`reset`, never calls `options.onChange`. -/
theorem C1_counterexample :
    eBase.hasOnChange = true ∧ onChangeEvs (Echo.delete eBase "a").2 = [] :=
  ⟨rfl, rfl⟩

/-- Claim C1, amended: with `onChange` configured, each single `set` and
each single `reset` invokes the callback exactly once with
`(newValue, oldValue)`, where `oldValue` is the value `current` returned
before the mutation and `newValue` is the committed value `current` returns
after it (the invocation is the operation's final step, after the commit);
`delete`, however, never invokes the callback. -/
theorem C1_theorem (e : EchoState) (part : JVal) (r : Bool) (k : String)
    (h : e.hasOnChange = true) :
    onChangeEvs (Echo.set e part r).2
        = [((Echo.set e part r).1.state, e.state)] ∧
    onChangeEvs (Echo.reset e).2 = [((Echo.reset e).1.state, e.state)] ∧
    onChangeEvs (Echo.delete e k).2 = [] := by
  refine ⟨?_, ?_, ?_⟩
  · rw [show (Echo.set e part r).1.state = zustandNext e.state part r from
      Echo_set_state e part r]
    simp only [Echo.set, onChangeEvs_append, onChangeEvs_commitEvs, h,
      if_true, List.nil_append]
    split
    · rw [onChangeEvs_broadcastState]; rfl
    · rfl
  · simp only [Echo.reset, onChangeEvs_append, onChangeEvs_commitEvs, h,
      if_true, List.nil_append]
    rfl
  · simp only [Echo.delete]
    exact onChangeEvs_commitEvs _ _

/-- Claim C1, witness instance of the amended statement at the example
store. -/
theorem C1_witness :
    onChangeEvs (Echo.set eBase (.obj [("a", .num 5)]) false).2
        = [((Echo.set eBase (.obj [("a", .num 5)]) false).1.state, eBase.state)] ∧
    onChangeEvs (Echo.reset eBase).2 = [((Echo.reset eBase).1.state, eBase.state)] ∧
    onChangeEvs (Echo.delete eBase "a").2 = [] :=
  C1_theorem eBase (.obj [("a", .num 5)]) false "a" rfl

/-- Claim C2, counterexample: on a named store with the default
`localStorage` persistence, `set`'s own synchronous execution performs a
storage write — the `persist` middleware's `localStorage.setItem` runs
inline inside `setState`, before `set` returns — so `set` does not complete
without storage I/O on this path. -/
theorem C2_counterexample :
    eLS.storageKind = StorageKind.localStorage ∧
    (Echo.set eLS (.obj [("a", .num 1)]) false).2.any
        (fun ev => isLocalWriteEv ev) = true :=
  ⟨rfl, rfl⟩

/-- Claim C2, amended: immediately after `set(v)` the committed state read
by `current` is `v` itself under `replace = true`, and under
`replace = false` it is `v` shallow-merged over the previous state (every
key reads as `v`'s value when `v` carries it, else as the previous value);
`set` and `current` never suspend and never await anything — the channel
`postMessage` and the IndexedDB backend write only run from later timer
continuations — but on the default `localStorage` path the commit itself
performs a synchronous, unawaited storage write before `set` returns. -/
theorem C2_theorem (e : EchoState) (p q : List (String × JVal))
    (hs : e.state = .obj p) :
    (Echo.set e (.obj q) true).1.state = .obj q ∧
    (∀ k, jsLookup (Echo.set e (.obj q) false).1.state k
        = optOr (jsLookup (.obj q) k) (jsLookup e.state k)) ∧
    (∀ r, (Echo.set e (.obj q) r).2.all (fun ev => !isDeferredIOEv ev) = true) ∧
    (∀ r, e.storageKind = StorageKind.localStorage →
      (Echo.set e (.obj q) r).2.any (fun ev => isLocalWriteEv ev) = true) := by
  refine ⟨?_, ?_, fun r => Echo_set_noDeferredIO e _ r,
    fun r hk => Echo_set_localWrite e _ r hk⟩
  · rw [Echo_set_state]; rfl
  · intro k
    rw [Echo_set_state, hs]
    simp only [zustandNext, jsLookup]
    simp [lookupF_objAssign]

/-- Claim C2, witness instance at the `localStorage`-persisted store:
`set` with `\x7b a: 5 \x7d` replaces outright under the flag, merges
key-wise without it, emits no deferred I/O, and does perform its
synchronous `localStorage` write. -/
theorem C2_witness :
    (Echo.set eLS (.obj [("a", .num 5)]) true).1.state = .obj [("a", .num 5)] ∧
    jsLookup (Echo.set eLS (.obj [("a", .num 5)]) false).1.state "a"
      = optOr (jsLookup (.obj [("a", .num 5)]) "a") (jsLookup eLS.state "a") ∧
    (Echo.set eLS (.obj [("a", .num 5)]) false).2.all
        (fun ev => !isDeferredIOEv ev) = true ∧
    (Echo.set eLS (.obj [("a", .num 5)]) false).2.any
        (fun ev => isLocalWriteEv ev) = true :=
  ⟨(C2_theorem eLS [("a", .num 0)] [("a", .num 5)] rfl).1,
   (C2_theorem eLS [("a", .num 0)] [("a", .num 5)] rfl).2.1 "a",
   (C2_theorem eLS [("a", .num 0)] [("a", .num 5)] rfl).2.2.1 false,
   (C2_theorem eLS [("a", .num 0)] [("a", .num 5)] rfl).2.2.2 false rfl⟩

/-- The saved record the backend holds in the hydration scenario. -/
def hydSaved : JVal := .obj [("a", .num 1)]

/-- Claim C3, evaluation of the code at the failing input: hydrating a
persistence-enabled store from the saved record `\x7b a: 1 \x7d` leaves
`isHydrating` already cleared when the debounced `saveState` timer fires
(the flag is set and reset within one synchronous block, while the
`SAVE_DELAY` debounce postpones `saveState` past it), so the hydration's own
commit does write the hydrated snapshot back to the storage backend —
the internal flag suppresses nothing. -/
theorem C3_theorem :
    (mwHydrate (mwStart (.obj [("a", .num 0)])) hydSaved).1.isHydrating = false ∧
    (mwFireSave (mwHydrate (mwStart (.obj [("a", .num 0)])) hydSaved).1 false).2
      = [Ev.storageWrite hydSaved] :=
  ⟨rfl, rfl⟩

/-- Claim C4, counterexample: with `MAX_RETRY_COUNT = 3` the source retries
while `retryCount < 3` and `retryCount` starts at 0, so a backend that fails
the first 3 write attempts still receives a 4th attempt — which here
succeeds — rather than deterministically ending in a permanent failure with
no further attempts. -/
theorem C4_counterexample :
    saveStateWithRetry 3 = (4, true) ∧ saveStateWithRetry 3 ≠ (3, false) := by
  refine ⟨rfl, ?_⟩
  decide

/-- Claim C4, amended: `saveStateWithRetry` retries a failed backend write
up to `MAX_RETRY_COUNT = 3` times after the initial attempt (with
`RETRY_DELAY` between attempts), so a backend failing the first `n` attempts
yields exactly `min (n + 1) 4` attempts, succeeding if and only if `n ≤ 3`;
in every case the function returns normally — each failure is caught and
logged, and nothing propagates to the `set` call that triggered the save. -/
theorem C4_theorem (failsFirst : Nat) :
    saveStateWithRetry failsFirst
      = (min (failsFirst + 1) (MAX_RETRY_COUNT + 1),
         decide (failsFirst ≤ MAX_RETRY_COUNT)) := by
  rcases failsFirst with _ | _ | _ | _ | n
  · rfl
  · rfl
  · rfl
  · rfl
  · have h0 : ¬ (n + 4 ≤ 0) := by omega
    have h1 : ¬ (n + 4 ≤ 1) := by omega
    have h2 : ¬ (n + 4 ≤ 2) := by omega
    have h3 : ¬ (n + 4 ≤ 3) := by omega
    simp only [saveStateWithRetry, MAX_RETRY_COUNT, saveRetryGo, h0, h1, h2, h3,
      if_false, Prod.mk.injEq]
    refine ⟨by omega, ?_⟩
    have hno : ¬ (n + 1 + 1 + 1 + 1 ≤ 3) := by omega
    simp [hno]

/-- Claim C5: an outbound broadcast is skipped whenever the content hash of
the value equals the stored `lastSyncHash`; that stored hash is updated when
a scheduled broadcast actually posts (`fireBroadcast`) and when an inbound
update passes validation (whether freshly applied or already matching); and
consequently, right after an inbound envelope is processed, broadcasting its
own `state` content is a complete no-op — the loop-breaker. -/
theorem C5_theorem (e : EchoState) (d v : JVal) :
    (e.lastSyncHash = some (Echo.getStateHash v) →
      Echo.broadcastState e v = (e, [])) ∧
    (e.pendingBroadcast = some v →
      (Echo.fireBroadcast e).1.lastSyncHash = some (Echo.getStateHash v)) ∧
    (Echo.validateStateUpdate d = true →
      (Echo.onMessage e d).1.lastSyncHash
          = some (Echo.getStateHash (jsGet d "state")) ∧
      Echo.broadcastState (Echo.onMessage e d).1 (jsGet d "state")
        = ((Echo.onMessage e d).1, [])) := by
  refine ⟨broadcastState_skip e v, ?_, ?_⟩
  · intro hp
    unfold Echo.fireBroadcast
    rw [hp]
  · intro hd
    have hkey : (Echo.onMessage e d).1.lastSyncHash
        = some (Echo.getStateHash (jsGet d "state")) := by
      unfold Echo.onMessage
      rw [if_pos hd]
      by_cases hc :
          (some (Echo.getStateHash (jsGet d "state")) == e.lastSyncHash) = true
      · rw [if_pos hc]
        exact ((eq_of_beq hc).symm)
      · rw [if_neg hc]
    exact ⟨hkey, broadcastState_skip _ _ hkey⟩

/-- The inbound envelope used by the loop-suppression witness. -/
def dC5 : JVal :=
  .obj [("type", .str "state-update"), ("state", .obj [("y", .num 2)]),
        ("timestamp", .num 1700000000000)]

/-- The value whose hash the witness store remembers and holds pending. -/
def vC5 : JVal := .obj [("x", .num 1)]

/-- A sync-enabled store that already remembers the hash of `vC5` and has a
broadcast of `vC5` pending. -/
def eC5 : EchoState :=
  { state := vC5, defaultValue := .obj [], name := some "s", syncOpt := true,
    hasOnChange := false, storageKind := .localStorage, channel := true,
    lastSyncHash := some (Echo.getStateHash vC5), pendingBroadcast := some vC5 }

/-- Claim C5, witness instance: the remembered hash suppresses the outbound
broadcast of `vC5`, firing the pending timer records that hash, and after
processing the inbound envelope `dC5` the hash of its state is stored and a
broadcast of the same content is skipped. -/
theorem C5_witness :
    Echo.broadcastState eC5 vC5 = (eC5, []) ∧
    (Echo.fireBroadcast eC5).1.lastSyncHash = some (Echo.getStateHash vC5) ∧
    (Echo.onMessage eC5 dC5).1.lastSyncHash
        = some (Echo.getStateHash (jsGet dC5 "state")) ∧
    Echo.broadcastState (Echo.onMessage eC5 dC5).1 (jsGet dC5 "state")
      = ((Echo.onMessage eC5 dC5).1, []) :=
  ⟨(C5_theorem eC5 dC5 vC5).1 rfl,
   (C5_theorem eC5 dC5 vC5).2.1 rfl,
   ((C5_theorem eC5 dC5 vC5).2.2 rfl).1,
   ((C5_theorem eC5 dC5 vC5).2.2 rfl).2⟩

/-- A callback (`onChange` or `subscribe` listener) that throws, as any
user-supplied JS function may. -/
def cbThrow : Callback := fun _ _ => .error "listener exploded"

/-- A well-behaved callback. -/
def cbOk : Callback := fun _ _ => .ok ()

/-- A minimal unnamed store with `onChange` configured. -/
def eC6 : EchoState :=
  { state := .obj [("a", .num 0)], defaultValue := .obj [("a", .num 0)],
    name := none, syncOpt := false, hasOnChange := true,
    storageKind := .unnamed,
    channel := false, lastSyncHash := none, pendingBroadcast := none }

/-- Claim C6, counterexample — three concrete throw paths falsify the
unconditional never-throws guarantee: a configured `onChange` that throws
escapes `set` (its call is `set`'s unguarded final statement); a failing
synchronous `localStorage.setItem` escapes `delete` on the default
persistence path (`persist`'s `void setItem()` has no catch); and a
throwing user `subscribe` listener, run unguarded inside `setState`,
escapes `set` even with a well-behaved `onChange`. -/
theorem C6_counterexample :
    Echo.setResult eC6 (.obj [("a", .num 1)]) false cbOk false cbThrow
        = .error "listener exploded" ∧
    Echo.deleteResult eLS "a" cbOk true = .error "storage setItem failed" ∧
    Echo.setResult eLS (.obj [("a", .num 1)]) false cbThrow false cbOk
        = .error "listener exploded" :=
  ⟨rfl, rfl, rfl⟩

/-- Claim C6, amended: `current` and `subscribe` never throw; `set`,
`delete` and `reset` propagate exceptions from the user code and the
synchronous storage write on their paths — a throwing `subscribe` listener
or a failing `localStorage.setItem` (default named-store path) escapes any
of the three, and a throwing configured `onChange` escapes `set` and
`reset` — but with non-throwing listeners and callback and no synchronous
storage failure (store unnamed, IndexedDB-persisted, or the backend
healthy), none of them throws, regardless of sync activity or of failures
of the asynchronous IndexedDB writes, which happen in detached
continuations. -/
theorem C6_theorem (e : EchoState) (part : JVal) (r : Bool) (k : String)
    (listener cb : Callback) (storageFails : Bool)
    (hl : ∀ n o, listener n o = .ok ())
    (hcb : ∀ n o, cb n o = .ok ())
    (hs : e.storageKind = StorageKind.localStorage → storageFails = false) :
    Echo.setResult e part r listener storageFails cb
        = .ok (Echo.set e part r).1 ∧
    Echo.resetResult e listener storageFails cb = .ok (Echo.reset e).1 ∧
    Echo.deleteResult e k listener storageFails = .ok (Echo.delete e k).1 ∧
    Echo.currentResult e = .ok e.state ∧
    Echo.subscribeResult e = .ok () := by
  have hcommit : ∀ n o, commitResult e listener storageFails n o = .ok () := by
    intro n o
    unfold commitResult
    rw [hl]
    cases hk : e.storageKind
    · rfl
    · simp [hs hk]
    · rfl
  refine ⟨?_, ?_, ?_, rfl, rfl⟩
  · simp only [Echo.setResult, hcommit, hcb]
    split <;> rfl
  · simp only [Echo.resetResult, hcommit, hcb]
    split <;> rfl
  · simp only [Echo.deleteResult, hcommit]

/-- Claim C6, witness instance of the amended statement: with non-throwing
listeners and callback and healthy storage, every hot-path operation
returns normally. -/
theorem C6_witness :
    Echo.setResult eC6 (.obj [("a", .num 2)]) false cbOk false cbOk
        = .ok (Echo.set eC6 (.obj [("a", .num 2)]) false).1 ∧
    Echo.resetResult eC6 cbOk false cbOk = .ok (Echo.reset eC6).1 ∧
    Echo.deleteResult eC6 "a" cbOk false = .ok (Echo.delete eC6 "a").1 ∧
    Echo.currentResult eC6 = .ok eC6.state ∧
    Echo.subscribeResult eC6 = .ok () :=
  C6_theorem eC6 (.obj [("a", .num 2)]) false "a" cbOk cbOk false
    (fun _ _ => rfl) (fun _ _ => rfl) (fun _ => rfl)

/-- The envelope shape stated by the spec, defined from the spec's words
for comparison with the code's `Echo.validateStateUpdate`: type tag
`"state-update"`, a `state` property, and an integer `timestamp`. -/
def specEnvelopeShape (d : JVal) : Bool :=
  match d with
  | .obj _ =>
      isStateUpdateType (jsGet d "type") && jsHasOwn d "state"
        && (match jsGet d "timestamp" with
            | .num _ => true
            | _ => false)
  | _ => false

/-- A malformed envelope: right tag, `state` present, but a string
timestamp. -/
def dC7 : JVal :=
  .obj [("type", .str "state-update"), ("state", .obj [("z", .num 9)]),
        ("timestamp", .str "not-a-number")]

/-- A sync-enabled receiver with nothing remembered. -/
def eC7 : EchoState :=
  { state := .obj [], defaultValue := .obj [], name := some "s",
    syncOpt := true, hasOnChange := false, storageKind := .localStorage,
    channel := true, lastSyncHash := none, pendingBroadcast := none }

/-- Claim C7, counterexample: `validateStateUpdate` only checks that the
properties exist — it never checks that `timestamp` is an integer — so the
envelope `dC7`, which does not match the claimed shape, is accepted and
applied to the receiver's state. -/
theorem C7_counterexample :
    specEnvelopeShape dC7 = false ∧
    Echo.validateStateUpdate dC7 = true ∧
    (Echo.onMessage eC7 dC7).1.state = .obj [("z", .num 9)] ∧
    eC7.state ≠ .obj [("z", .num 9)] := by
  refine ⟨rfl, rfl, rfl, ?_⟩
  simp [eC7]

/-- Claim C7, amended: the receiver applies an inbound message only if it
is a truthy object whose `type` is exactly `"state-update"` and which has
own properties `state` and `timestamp` — the values' types are not checked;
any message failing this test is ignored outright (state, hash and pending
timers untouched, no events, and the handler's try/catch means no crash). -/
theorem C7_theorem (e : EchoState) (d : JVal)
    (h : Echo.validateStateUpdate d = false) :
    Echo.onMessage e d = (e, []) := by
  unfold Echo.onMessage
  rw [if_neg]
  simp [h]

/-- Claim C7, witness instance of the amended statement: a bare number is
rejected and leaves the receiver untouched. -/
theorem C7_witness : Echo.onMessage eC7 (.num 5) = (eC7, []) :=
  C7_theorem eC7 (.num 5) rfl

/-- Claim C8: with sync currently enabled (`channel` open), `sync(true)` is
a complete no-op; `sync(false)` closes and drops the channel and clears
`lastSyncHash`; and a `sync(true)` issued on the resulting state still finds
no remembered hash after re-initialization (the initial broadcast only
schedules, it does not record a hash). -/
theorem C8_theorem (e : EchoState) (envOK : Bool) (h : e.channel = true) :
    Echo.sync e true envOK = (e, []) ∧
    (Echo.sync e false envOK).1.channel = false ∧
    (Echo.sync e false envOK).1.lastSyncHash = none ∧
    (Echo.sync (Echo.sync e false envOK).1 true envOK).1.lastSyncHash = none := by
  have h2 : Echo.sync e false envOK
      = ({e with channel := false, lastSyncHash := none}, []) := by
    unfold Echo.sync
    rw [h]
    rfl
  refine ⟨?_, by rw [h2], by rw [h2], ?_⟩
  · unfold Echo.sync
    rw [h]
    rfl
  · rw [h2]
    show (Echo.initSync {e with channel := false, lastSyncHash := none}
        envOK).1.lastSyncHash = none
    unfold Echo.initSync
    cases hn : e.name with
    | none => simp [hn]
    | some s =>
        simp only [hn]
        cases envOK
        · rfl
        · simp [broadcastState_lastSyncHash]

/-- A sync-enabled store with an open channel and a remembered hash. -/
def eC8 : EchoState :=
  { state := .obj [("a", .num 0)], defaultValue := .obj [],
    name := some "s", syncOpt := true, hasOnChange := false,
    storageKind := .localStorage, channel := true,
    lastSyncHash := some "remembered", pendingBroadcast := none }

/-- Claim C8, witness instance at a store with an open channel and a
remembered hash. -/
theorem C8_witness :
    Echo.sync eC8 true true = (eC8, []) ∧
    (Echo.sync eC8 false true).1.channel = false ∧
    (Echo.sync eC8 false true).1.lastSyncHash = none ∧
    (Echo.sync (Echo.sync eC8 false true).1 true true).1.lastSyncHash = none :=
  C8_theorem eC8 true rfl

/-- Claim C9: when a validated inbound broadcast is applied on a store with
`onChange` configured, the callback receives the incoming (already applied)
state as BOTH arguments — the handler reads its `oldState` from
`this.current` only after `setState`, so the pre-update value is never
passed on the inbound path. -/
theorem C9_theorem (e : EchoState) (d : JVal)
    (h1 : Echo.validateStateUpdate d = true)
    (h2 : e.lastSyncHash ≠ some (Echo.getStateHash (jsGet d "state")))
    (h3 : e.hasOnChange = true) :
    (Echo.onMessage e d).1.state = jsGet d "state" ∧
    onChangeEvs (Echo.onMessage e d).2
      = [(jsGet d "state", jsGet d "state")] := by
  have hc : (some (Echo.getStateHash (jsGet d "state")) == e.lastSyncHash)
      = false := by
    refine beq_eq_false_iff_ne.mpr ?_
    intro hEq
    exact h2 hEq.symm
  simp only [Echo.onMessage, h1, hc, if_true, Bool.false_eq_true, if_false,
    onChangeEvs_append, onChangeEvs_commitEvs, h3, List.nil_append]
  refine ⟨?_, ?_⟩ <;> first
    | rfl
    | trivial

/-- The inbound envelope of the C9 witness. -/
def dC9 : JVal :=
  .obj [("type", .str "state-update"), ("state", .obj [("n", .num 7)]),
        ("timestamp", .num 123)]

/-- The receiving store of the C9 witness: `onChange` configured, nothing
remembered, state differing from the incoming one. -/
def eC9 : EchoState :=
  { state := .obj [("n", .num 0)], defaultValue := .obj [("n", .num 0)],
    name := some "s", syncOpt := true, hasOnChange := true,
    storageKind := .localStorage,
    channel := true, lastSyncHash := none, pendingBroadcast := none }

/-- Claim C9, witness instance: the receiver's state genuinely differs from
the incoming one, yet `onChange` is handed the incoming state twice. -/
theorem C9_witness :
    eC9.state ≠ jsGet dC9 "state" ∧
    (Echo.onMessage eC9 dC9).1.state = jsGet dC9 "state" ∧
    onChangeEvs (Echo.onMessage eC9 dC9).2
      = [(jsGet dC9 "state", jsGet dC9 "state")] := by
  have hne : (JVal.obj [("n", JVal.num 0)]) ≠ (JVal.obj [("n", JVal.num 7)]) := by
    simp
  exact ⟨hne,
    (C9_theorem eC9 dC9 rfl (by simp [eC9]) rfl).1,
    (C9_theorem eC9 dC9 rfl (by simp [eC9]) rfl).2⟩

/-- Claim C10: `reset` and `delete` emit no outbound-broadcast activity at
all — they neither post on the channel nor even register a broadcast
debounce timer (their traces carry no broadcast events and the pending
broadcast slot is untouched); in the model only `Echo.set` and
`Echo.initSync` ever reach `Echo.broadcastState`. -/
theorem C10_theorem (e : EchoState) (k : String) :
    (Echo.reset e).2.all (fun ev => !isBroadcastEv ev) = true ∧
    (Echo.delete e k).2.all (fun ev => !isBroadcastEv ev) = true ∧
    (Echo.reset e).1.pendingBroadcast = e.pendingBroadcast ∧
    (Echo.delete e k).1.pendingBroadcast = e.pendingBroadcast := by
  refine ⟨?_, ?_, rfl, rfl⟩
  · simp only [Echo.reset, List.all_append, Bool.and_eq_true]
    refine ⟨?_, ?_⟩
    · unfold commitEvs
      split <;> rfl
    · split <;> rfl
  · simp only [Echo.delete]
    unfold commitEvs
    split <;> rfl
